import Mathlib

/-
Shallow embedding of FalkorDBFactMemory
(src/hybridagi/memory/integration/falkordb/falkordb_fact_memory.py).

The adapter issues fixed query templates against a graph backend.  We model
the backend semantically, as the spec does in section 6: a graph is a list of
nodes (label tags plus a property map) and a list of directed typed edges.
Each query template of the adapter is translated into a function on this
graph state, faithful to the data the template actually binds:
  - the entity upsert sets the properties name, description, metadata and
    vector on a node matched (or created) by its id property and label tags;
    the label itself is stored only as a node tag, never as a property;
  - the fact upsert passes the endpoint ids as raw parameter values
    (the source does not stringify fact.subj.id / fact.obj.id), so a UUID
    parameter never matches an id property stored as a string;
  - a query that references a parameter it never binds, or an identifier
    that is not defined in the query, fails at the backend; this is the case
    for the second deletion query of remove and for the whole get_facts
    query, both of which reference an unbound parameter id (and get_facts
    additionally filters on an identifier e that the query never defines).
Python-level failures (TypeError from iterating a UUID, KeyError from a
missing dictionary key, ValueError from the type check in update) are
modelled with an explicit error type.
-/

set_option maxHeartbeats 1000000

namespace HybridAGI

/-- An identifier as the Python code sees it: either a uuid.UUID object
(carrying its canonical string form) or a plain string. -/
inductive Ident where
  | uuid (s : String)
  | str (s : String)
  deriving DecidableEq, Repr

/-- Python str(i): the canonical string form of a UUID, or the string itself. -/
def Ident.toString : Ident → String
  | .uuid s => s
  | .str s => s

/-- Hexadecimal digit test, as accepted inside a canonical UUID string. -/
def isHexDigitChar (c : Char) : Bool :=
  c.isDigit || (decide ('a' ≤ c) && decide (c ≤ 'f')) || (decide ('A' ≤ c) && decide (c ≤ 'F'))

/-- Canonical hyphenated UUID form, the shape produced by str(uuid.UUID).
UUID(s) in get_entities succeeds exactly on parseable UUID strings; all ids
that reach the decoder in this development are either canonical UUID strings
or strings that are clearly not UUIDs, so the canonical check suffices. -/
def isUUIDString (s : String) : Bool :=
  decide (s.length = 36) && s.data.enum.all fun ic =>
    if ic.1 = 8 ∨ ic.1 = 13 ∨ ic.1 = 18 ∨ ic.1 = 23 then decide (ic.2 = '-')
    else isHexDigitChar ic.2

/-- A property value stored in the graph or passed as a query parameter. -/
inductive PVal where
  | pstr (s : String)
  | puuid (s : String)
  | pvec (v : List Int)
  | pnull
  deriving DecidableEq, Repr

/-- A node or edge property map. -/
abbrev Props := List (String × PVal)

/-- First-match key lookup in a property map; none models a Python KeyError
when the caller indexes the dictionary. -/
def lookupProp (ps : Props) (k : String) : Option PVal :=
  match ps with
  | [] => none
  | (k0, v0) :: rest => if k0 = k then some v0 else lookupProp rest k

/-- SET of a single property: overwrite the first binding of the key, or
append the key if absent. -/
def setProp (ps : Props) (k : String) (v : PVal) : Props :=
  match ps with
  | [] => [(k, v)]
  | (k0, v0) :: rest => if k0 = k then (k, v) :: rest else (k0, v0) :: setProp rest k v

/-- SET of a list of properties, left to right. -/
def setMany (ps : Props) (kvs : List (String × PVal)) : Props :=
  kvs.foldl (fun a kv => setProp a kv.1 kv.2) ps

/-- hybridagi.core.datatypes.Entity as used by the adapter: id, name, label,
optional description, optional embedding vector, metadata mapping. -/
structure Entity where
  id : Ident
  name : String
  label : String
  description : Option String
  vector : Option (List Int)
  metadata : List (String × String)
  deriving DecidableEq, Repr

/-- hybridagi.core.datatypes.Relationship: a value object wrapping the
relationship name. -/
structure Relationship where
  name : String
  deriving DecidableEq, Repr

/-- hybridagi.core.datatypes.Fact: a directed typed edge record between two
entity records. -/
structure Fact where
  id : Ident
  subj : Entity
  rel : Relationship
  obj : Entity
  vector : Option (List Int)
  metadata : List (String × String)
  deriving DecidableEq, Repr

/-- json.dumps of a flat string-to-string mapping, as the adapter serializes
metadata before storing it. -/
def jsonDumps (m : List (String × String)) : String :=
  "\x7b" ++ String.intercalate ", "
    (m.map fun kv => "\"" ++ kv.1 ++ "\": \"" ++ kv.2 ++ "\"") ++ "\x7d"

instance {ε α : Type} [DecidableEq ε] [DecidableEq α] : DecidableEq (Except ε α) := fun a b =>
  match a, b with
  | .ok x, .ok y => if h : x = y then .isTrue (by rw [h]) else .isFalse (by simp [h])
  | .error x, .error y => if h : x = y then .isTrue (by rw [h]) else .isFalse (by simp [h])
  | .ok _, .error _ => .isFalse (by simp)
  | .error _, .ok _ => .isFalse (by simp)

/-- The error outcomes the adapter code can produce. -/
inductive Err where
  | valueError (msg : String)
  | typeError (msg : String)
  | keyError (key : String)
  | queryError (msg : String)
  deriving DecidableEq, Repr

/-- A graph node: label tags and a property map. -/
structure GNode where
  labels : List String
  props : Props
  deriving DecidableEq, Repr

/-- A directed typed edge; src and dst hold the id property of the endpoint
nodes the edge was merged between. -/
structure GEdge where
  src : String
  typ : String
  dst : String
  props : Props
  deriving DecidableEq, Repr

/-- The backend graph state. -/
structure Graph where
  nodes : List GNode
  edges : List GEdge
  deriving DecidableEq, Repr

def emptyGraph : Graph := ⟨[], []⟩

/-- How an id travels as a query parameter: the fact upsert passes the raw
subject and object ids, so a UUID stays a UUID value rather than a string. -/
def Ident.toParam : Ident → PVal
  | .uuid s => .puuid s
  | .str s => .pstr s

/-- Modelled from the spec: FalkorDBMemory.exist (falkordb_memory.py is not
part of src), section 4.1 of the spec: does a node with this id exist tagged
as an entity. Stored ids are the string form of the id. -/
def existEntity (g : Graph) (i : Ident) : Bool :=
  g.nodes.any fun n =>
    decide ("Entity" ∈ n.labels) &&
    decide (lookupProp n.props "id" = some (.pstr i.toString))

/-- Modelled from the spec: FalkorDBMemory.exist_fact (falkordb_memory.py is
not part of src), section 4.1 of the spec: does an edge with this id exist
tagged as a fact. -/
def existFactEdge (g : Graph) (i : Ident) : Bool :=
  g.edges.any fun ed =>
    decide (ed.typ = "FACT") &&
    decide (lookupProp ed.props "id" = some (.pstr i.toString))

/-- FalkorDBFactMemory.exist: entity check first, then fact check. -/
def exist (g : Graph) (i : Ident) : Bool :=
  existEntity g i || existFactEdge g i

/-- The properties the entity upsert SETs: name, description, metadata
(serialized), vector. The label is not among them. -/
def entitySetList (e : Entity) : List (String × PVal) :=
  [("name", .pstr e.name),
   ("description", match e.description with | some d => .pstr d | none => .pnull),
   ("metadata", .pstr (jsonDumps e.metadata)),
   ("vector", match e.vector with | some v => .pvec v | none => .pnull)]

def applyEntitySet (ps : Props) (e : Entity) : Props :=
  setMany ps (entitySetList e)

/-- The MERGE pattern of the entity upsert: a node tagged Entity and with the
entity label, whose id property is the string form of the entity id. -/
def entityMergeMatch (e : Entity) (n : GNode) : Bool :=
  decide ("Entity" ∈ n.labels) &&
  decide (e.label ∈ n.labels) &&
  decide (lookupProp n.props "id" = some (.pstr e.id.toString))

/-- The node MERGE creates when the pattern has no match: tags from the
pattern, id property from the pattern, then the SET clause applied. -/
def newEntityNode (e : Entity) : GNode :=
  ⟨["Entity", e.label], applyEntitySet [("id", .pstr e.id.toString)] e⟩

/-- SET applied to one node when it matches the MERGE pattern. -/
def mergeSet (e : Entity) (n : GNode) : GNode :=
  if entityMergeMatch e n then { n with props := applyEntitySet n.props e } else n

/-- The entity upsert on the node list: SET every matched node, or create the
node when nothing matches. -/
def mergeEntityNodes (ns : List GNode) (e : Entity) : List GNode :=
  if ns.any (entityMergeMatch e) then ns.map (mergeSet e)
  else ns ++ [newEntityNode e]

/-- One entity upsert query (update, entity branch, lines 83 to 94). -/
def mergeEntity (g : Graph) (e : Entity) : Graph :=
  { g with nodes := mergeEntityNodes g.nodes e }

/-- The edge properties the fact upsert SETs with r += properties. -/
def factSetList (f : Fact) : List (String × PVal) :=
  [("relationship", .pstr f.rel.name),
   ("vector", match f.vector with | some v => .pvec v | none => .pnull),
   ("metadata", .pstr (jsonDumps f.metadata))]

/-- MATCH pattern for an endpoint of the fact upsert: an Entity node whose id
property equals the raw parameter value. -/
def nodeParamMatch (p : PVal) (n : GNode) : Bool :=
  decide ("Entity" ∈ n.labels) &&
  decide (lookupProp n.props "id" = some p)

/-- MERGE pattern for the fact edge between two already-matched endpoints. -/
def edgeMergeMatch (sid oid fid : String) (ed : GEdge) : Bool :=
  decide (ed.src = sid) && decide (ed.typ = "FACT") &&
  decide (ed.dst = oid) &&
  decide (lookupProp ed.props "id" = some (.pstr fid))

/-- The fact edge upsert query (update, fact branch, lines 117 to 125):
MATCH both endpoints by raw id parameter, then MERGE the FACT edge by id and
SET its properties. When an endpoint does not match (in particular whenever
the raw parameter is a UUID value while stored ids are strings) the MATCH is
empty and the query does nothing. -/
def factEdgeMerge (g : Graph) (f : Fact) : Graph :=
  match g.nodes.find? (nodeParamMatch f.subj.id.toParam),
        g.nodes.find? (nodeParamMatch f.obj.id.toParam) with
  | some sn, some tn =>
    match lookupProp sn.props "id", lookupProp tn.props "id" with
    | some (.pstr sid), some (.pstr oid) =>
      if g.edges.any (edgeMergeMatch sid oid f.id.toString) then
        { g with edges := g.edges.map fun ed =>
            if edgeMergeMatch sid oid f.id.toString ed then
              { ed with props := setMany ed.props (factSetList f) }
            else ed }
      else
        { g with edges :=
            g.edges ++
              [⟨sid, "FACT", oid, setMany [("id", .pstr f.id.toString)] (factSetList f)⟩] }
    | _, _ => g
  | _, _ => g

/-- One fact of the fact branch of update (lines 101 to 125): ensure each
endpoint exists, recursively updating it as an entity when it does not, then
merge the edge. -/
def updateFactOne (g : Graph) (f : Fact) : Graph :=
  let g1 := if exist g f.subj.id then g else mergeEntity g f.subj
  let g2 := if exist g1 f.obj.id then g1 else mergeEntity g1 f.obj
  factEdgeMerge g2 f

def updateFacts (g : Graph) (fs : List Fact) : Graph :=
  fs.foldl updateFactOne g

def updateEntities (g : Graph) (es : List Entity) : Graph :=
  es.foldl mergeEntity g

/-- The argument shapes update dispatches on; other stands for any Python
value that is none of Entity, EntityList, Fact, FactList. -/
inductive UpdateArg where
  | ent (e : Entity)
  | entList (l : List Entity)
  | fact (f : Fact)
  | factList (l : List Fact)
  | other (descr : String)
  deriving DecidableEq, Repr

/-- FalkorDBFactMemory.update. The isinstance check rejects any other shape
with a ValueError before any query is issued. -/
def update (g : Graph) (arg : UpdateArg) : Graph × Option Err :=
  match arg with
  | .ent e => (updateEntities g [e], none)
  | .entList l => (updateEntities g l, none)
  | .fact f => (updateFacts g [f], none)
  | .factList l => (updateFacts g l, none)
  | .other _ =>
    (g, some (.valueError "Invalid datatype provided must be Entity, EntityList, Fact or FactList"))

/-- The argument shapes of remove, get_entities and get_facts. -/
inductive IdOrIds where
  | single (i : Ident)
  | list (l : List Ident)
  deriving DecidableEq, Repr

/-- The id list each of remove, get_entities and get_facts builds with the
comprehension over the raw argument id_or_ids. The normalized one-element
list entities_ids is computed in all three methods but never used, so a
single UUID argument raises TypeError (a UUID is not iterable) and a single
string argument is split into its characters. -/
def buildIds : IdOrIds → Except Err (List String)
  | .single (.uuid _) => .error (.typeError "UUID object is not iterable")
  | .single (.str s) => .ok (s.data.map Char.toString)
  | .list l => .ok (l.map Ident.toString)

/-- WHERE e.id IN ids over Entity nodes, the match predicate shared by the
node fetch of get_entities and the node deletion of remove. -/
def entityFetchMatch (ids : List String) (n : GNode) : Bool :=
  decide ("Entity" ∈ n.labels) &&
  (match lookupProp n.props "id" with
   | some (.pstr s) => decide (s ∈ ids)
   | _ => false)

def getProp (ps : Props) (k : String) : Except Err PVal :=
  match lookupProp ps k with
  | some v => .ok v
  | none => .error (.keyError k)

/-- The try UUID except fallback of get_entities on the id property. A
non-string id property cannot validate as an Entity id; that branch is
unreachable for nodes the adapter writes. -/
def parseEntityId : PVal → Except Err Ident
  | .pstr s => .ok (if isUUIDString s then .uuid s else .str s)
  | _ => .error (.valueError "id property is not a string")

def asStr : PVal → Except Err String
  | .pstr s => .ok s
  | _ => .error (.valueError "string property expected")

def asOptStr : PVal → Except Err (Option String)
  | .pstr s => .ok (some s)
  | .pnull => .ok none
  | _ => .error (.valueError "string or null property expected")

def asVec : PVal → Except Err (Option (List Int))
  | .pvec v => .ok (some v)
  | .pnull => .ok none
  | _ => .error (.valueError "vector or null property expected")

/-- Decoding of one returned node in get_entities (lines 176 to 189): parse
the id with UUID fallback, then read name, label, description and vector
from the property map in the order the Entity constructor arguments are
evaluated. The metadata property is never read back, so the decoded entity
carries the default empty metadata. The label was never stored as a
property, so this lookup fails with KeyError for every node the adapter
itself created. -/
def decodeEntityNode (n : GNode) : Except Err Entity := do
  let idp ← getProp n.props "id"
  let eid ← parseEntityId idp
  let namep ← getProp n.props "name"
  let labelp ← getProp n.props "label"
  let descp ← getProp n.props "description"
  let vecp ← getProp n.props "vector"
  let nm ← asStr namep
  let lab ← asStr labelp
  let desc ← asOptStr descp
  let vec ← asVec vecp
  return ⟨eid, nm, lab, desc, vec, []⟩

/-- FalkorDBFactMemory.get_entities: build the id list from the raw
argument, fetch the Entity nodes whose id property is in the list, decode
each row. -/
def getEntities (g : Graph) (arg : IdOrIds) : Except Err (List Entity) :=
  match buildIds arg with
  | .error e => .error e
  | .ok ids => (g.nodes.filter (entityFetchMatch ids)).mapM decodeEntityNode

/-- FalkorDBFactMemory.get_facts: build the id list from the raw argument,
then issue the fetch query. The query template filters on an identifier e
that the query never defines and on a parameter id that is never bound
(params only carries ids), so the backend rejects it; no row is ever
decoded. (Had rows been produced, decoding would still fail: the fact id is
read from entity_data, a Python variable that does not exist in get_facts,
and the result is accumulated on a facts attribute that the EntityList
result object does not have.) -/
def getFacts (g : Graph) (arg : IdOrIds) : Except Err (List Fact) :=
  match buildIds arg with
  | .error e => .error e
  | .ok _ =>
    .error (.queryError "get_facts filters on undefined identifier e and unbound parameter id")

/-- The first deletion query of remove: MATCH Entity nodes whose id is in
the list, DETACH DELETE, which also drops every edge incident to a deleted
node. -/
def detachDeleteEntities (g : Graph) (ids : List String) : Graph :=
  let deletedIds := (g.nodes.filter (entityFetchMatch ids)).filterMap fun n =>
    match lookupProp n.props "id" with
    | some (.pstr s) => some s
    | _ => none
  { nodes := g.nodes.filter fun n => !(entityFetchMatch ids n),
    edges := g.edges.filter fun ed =>
      !(decide (ed.src ∈ deletedIds) || decide (ed.dst ∈ deletedIds)) }

/-- FalkorDBFactMemory.remove: build the id list from the raw argument (so a
single UUID raises TypeError before any query), run the node deletion, then
run the fact-edge deletion query, whose pattern references a parameter id
that is never bound, so the backend rejects it and no fact edge is ever
deleted by id. -/
def remove (g : Graph) (arg : IdOrIds) : Graph × Option Err :=
  match buildIds arg with
  | .error e => (g, some e)
  | .ok ids =>
    let g1 := detachDeleteEntities g ids
    (g1, some (.queryError "fact deletion query references unbound parameter id"))

/-- Number of stored nodes whose id property is the given string. -/
def countIdNodes (g : Graph) (s : String) : Nat :=
  (g.nodes.filter fun n => decide (lookupProp n.props "id" = some (.pstr s))).length

/- Concrete inputs used by the claim theorems. -/

def uuidA : String := "11111111-1111-1111-1111-111111111111"
def uuidB : String := "22222222-2222-2222-2222-222222222222"
def uuidF : String := "33333333-3333-3333-3333-333333333333"

def eParis : Entity := ⟨.uuid uuidA, "Paris", "City", none, none, []⟩
def eFrance : Entity := ⟨.uuid uuidB, "France", "Country", none, none, []⟩
def fLocated : Fact := ⟨.uuid uuidF, eParis, ⟨"located_in"⟩, eFrance, none, []⟩

/-- The Paris and France scenario graph of the spec example. -/
def gScenario : Graph :=
  (update (update (update emptyGraph (.ent eParis)).1 (.ent eFrance)).1 (.fact fLocated)).1

/-- An entity with every optional field populated, for the round-trip
claims. -/
def eRich : Entity :=
  ⟨.uuid uuidA, "Paris", "City", some "capital of France", some [1, 2, 3],
   [("country", "France")]⟩

def gRich : Graph := (update emptyGraph (.ent eRich)).1

/-- String-id entities and a fact between them, for the removal claims. -/
def eA : Entity := ⟨.str "ent-a", "A", "Thing", none, none, []⟩
def eB : Entity := ⟨.str "ent-b", "B", "Thing", none, none, []⟩
def fAB : Fact := ⟨.str "fact-1", eA, ⟨"likes"⟩, eB, none, []⟩

def gAB : Graph :=
  (update (update (update emptyGraph (.ent eA)).1 (.ent eB)).1 (.fact fAB)).1

/-- The two string-id entities stored, no edge, for the frame claim. -/
def gTwo : Graph :=
  (update (update emptyGraph (.ent eA)).1 (.ent eB)).1

/- Lemmas about property maps. -/

theorem lookupProp_setProp_self (ps : Props) (k : String) (v : PVal) :
    lookupProp (setProp ps k v) k = some v := by
  induction ps with
  | nil => simp [setProp, lookupProp]
  | cons hd t ih =>
    obtain ⟨k0, v0⟩ := hd
    by_cases hk : k0 = k
    · simp [setProp, hk, lookupProp]
    · simp [setProp, hk, lookupProp, ih]

theorem lookupProp_setProp_ne (ps : Props) (k k2 : String) (v : PVal) (h : k2 ≠ k) :
    lookupProp (setProp ps k v) k2 = lookupProp ps k2 := by
  have hkk : ¬k = k2 := fun he => h he.symm
  induction ps with
  | nil => simp [setProp, lookupProp, hkk]
  | cons hd t ih =>
    obtain ⟨k0, v0⟩ := hd
    by_cases hk : k0 = k
    · subst hk
      simp [setProp, lookupProp, hkk]
    · simp only [setProp, if_neg hk, lookupProp]
      by_cases hk2 : k0 = k2
      · simp [hk2]
      · simp [hk2, ih]

theorem setProp_of_lookup_eq (ps : Props) (k : String) (v : PVal)
    (h : lookupProp ps k = some v) : setProp ps k v = ps := by
  induction ps with
  | nil => simp [lookupProp] at h
  | cons hd t ih =>
    obtain ⟨k0, v0⟩ := hd
    by_cases hk : k0 = k
    · subst hk
      have hv : v0 = v := by simpa [lookupProp] using h
      simp [setProp, hv]
    · simp only [lookupProp, if_neg hk] at h
      simp [setProp, hk, ih h]

theorem setMany_cons (ps : Props) (k : String) (v : PVal) (kvs : List (String × PVal)) :
    setMany ps ((k, v) :: kvs) = setMany (setProp ps k v) kvs := rfl

theorem lookupProp_setMany_notin (ps : Props) (kvs : List (String × PVal)) (k : String)
    (h : ∀ kv ∈ kvs, kv.1 ≠ k) :
    lookupProp (setMany ps kvs) k = lookupProp ps k := by
  induction kvs generalizing ps with
  | nil => rfl
  | cons hd t ih =>
    obtain ⟨k2, v2⟩ := hd
    rw [setMany_cons, ih (setProp ps k2 v2) (fun kv hkv => h kv (by simp [hkv]))]
    exact lookupProp_setProp_ne ps k2 k v2 (fun he => (h (k2, v2) (by simp)) he.symm)

theorem setMany_setMany_self (ps : Props) (kvs : List (String × PVal))
    (h : (kvs.map Prod.fst).Nodup) :
    setMany (setMany ps kvs) kvs = setMany ps kvs := by
  induction kvs generalizing ps with
  | nil => rfl
  | cons hd t ih =>
    obtain ⟨k, v⟩ := hd
    simp only [List.map_cons, List.nodup_cons, List.mem_map] at h
    have hnot : ∀ kv ∈ t, kv.1 ≠ k := by
      intro kv hkv he
      exact h.1 ⟨kv, hkv, he⟩
    have hlk : lookupProp (setMany (setProp ps k v) t) k = some v := by
      rw [lookupProp_setMany_notin (setProp ps k v) t k hnot]
      exact lookupProp_setProp_self ps k v
    rw [setMany_cons, setMany_cons, setProp_of_lookup_eq _ k v hlk]
    exact ih (setProp ps k v) h.2

theorem forall_fst_ne_of_not_mem (kvs : List (String × PVal)) (k : String)
    (h : k ∉ kvs.map Prod.fst) : ∀ kv ∈ kvs, kv.1 ≠ k := by
  intro kv hkv he
  exact h (he ▸ List.mem_map_of_mem Prod.fst hkv)

theorem entitySetList_fst (e : Entity) :
    (entitySetList e).map Prod.fst = ["name", "description", "metadata", "vector"] := rfl

theorem applyEntitySet_idem (ps : Props) (e : Entity) :
    applyEntitySet (applyEntitySet ps e) e = applyEntitySet ps e :=
  setMany_setMany_self ps (entitySetList e) (by rw [entitySetList_fst]; decide)

theorem lookupProp_applyEntitySet_id (ps : Props) (e : Entity) :
    lookupProp (applyEntitySet ps e) "id" = lookupProp ps "id" :=
  lookupProp_setMany_notin ps (entitySetList e) "id"
    (forall_fst_ne_of_not_mem _ _ (by rw [entitySetList_fst]; decide))

/- Lemmas about the entity upsert. -/

theorem entityMergeMatch_iff (e : Entity) (n : GNode) :
    entityMergeMatch e n = true ↔
      "Entity" ∈ n.labels ∧ e.label ∈ n.labels ∧
        lookupProp n.props "id" = some (.pstr e.id.toString) := by
  simp [entityMergeMatch, Bool.and_eq_true, decide_eq_true_eq, and_assoc]

theorem mergeSet_labels (e : Entity) (n : GNode) : (mergeSet e n).labels = n.labels := by
  unfold mergeSet
  split <;> rfl

theorem mergeSet_lookup_id (e : Entity) (n : GNode) :
    lookupProp (mergeSet e n).props "id" = lookupProp n.props "id" := by
  unfold mergeSet
  split
  · exact lookupProp_applyEntitySet_id n.props e
  · rfl

theorem entityMergeMatch_mergeSet (e : Entity) (n : GNode) :
    entityMergeMatch e (mergeSet e n) = entityMergeMatch e n := by
  unfold entityMergeMatch
  rw [mergeSet_labels, mergeSet_lookup_id]

theorem mergeSet_pos (e : Entity) (n : GNode) (h : entityMergeMatch e n = true) :
    mergeSet e n = { n with props := applyEntitySet n.props e } := by
  unfold mergeSet
  rw [if_pos h]

theorem mergeSet_neg (e : Entity) (n : GNode) (h : entityMergeMatch e n = false) :
    mergeSet e n = n := by
  unfold mergeSet
  rw [if_neg (by simp [h])]

theorem mergeSet_idem (e : Entity) (n : GNode) : mergeSet e (mergeSet e n) = mergeSet e n := by
  cases hm : entityMergeMatch e n with
  | true =>
    have h2 : entityMergeMatch e (mergeSet e n) = true := by
      rw [entityMergeMatch_mergeSet]
      exact hm
    rw [mergeSet_pos e _ h2, mergeSet_pos e n hm]
    simp [applyEntitySet_idem]
  | false =>
    rw [mergeSet_neg e n hm, mergeSet_neg e n hm]

theorem newEntityNode_match (e : Entity) : entityMergeMatch e (newEntityNode e) = true := by
  apply (entityMergeMatch_iff e _).mpr
  refine ⟨by simp [newEntityNode], by simp [newEntityNode], ?_⟩
  show lookupProp (applyEntitySet [("id", .pstr e.id.toString)] e) "id" = some (.pstr e.id.toString)
  rw [lookupProp_applyEntitySet_id]
  simp [lookupProp]

theorem mergeEntityNodes_pos (ns : List GNode) (e : Entity)
    (h : ns.any (entityMergeMatch e) = true) :
    mergeEntityNodes ns e = ns.map (mergeSet e) := by
  unfold mergeEntityNodes
  rw [if_pos h]

theorem mergeEntityNodes_neg (ns : List GNode) (e : Entity)
    (h : ns.any (entityMergeMatch e) = false) :
    mergeEntityNodes ns e = ns ++ [newEntityNode e] := by
  unfold mergeEntityNodes
  rw [if_neg (by simp [h])]

theorem map_mergeSet_unmatched (e : Entity) (ns : List GNode)
    (hall : ∀ n ∈ ns, entityMergeMatch e n = false) :
    ns.map (mergeSet e) = ns := by
  induction ns with
  | nil => rfl
  | cons n t ih =>
    rw [List.map_cons, mergeSet_neg e n (hall n (by simp)),
      ih (fun x hx => hall x (by simp [hx]))]

theorem mergeSet_newEntityNode (e : Entity) : mergeSet e (newEntityNode e) = newEntityNode e := by
  rw [mergeSet_pos e _ (newEntityNode_match e)]
  show ({ newEntityNode e with props := applyEntitySet (applyEntitySet _ e) e } : GNode) = _
  rw [applyEntitySet_idem]
  rfl

theorem mergeEntityNodes_idem (ns : List GNode) (e : Entity) :
    mergeEntityNodes (mergeEntityNodes ns e) e = mergeEntityNodes ns e := by
  cases hAny : ns.any (entityMergeMatch e) with
  | true =>
    rw [mergeEntityNodes_pos ns e hAny]
    have hAny2 : (ns.map (mergeSet e)).any (entityMergeMatch e) = true := by
      obtain ⟨n, hn, hm⟩ := List.any_eq_true.mp hAny
      exact List.any_eq_true.mpr
        ⟨mergeSet e n, List.mem_map_of_mem _ hn, by rw [entityMergeMatch_mergeSet]; exact hm⟩
    rw [mergeEntityNodes_pos _ e hAny2, List.map_map]
    have hcomp : mergeSet e ∘ mergeSet e = mergeSet e := funext (mergeSet_idem e)
    rw [hcomp]
  | false =>
    rw [mergeEntityNodes_neg ns e hAny]
    have hall : ∀ n ∈ ns, entityMergeMatch e n = false := by
      intro n hn
      simpa using List.any_eq_false.mp hAny n hn
    have hAny2 : (ns ++ [newEntityNode e]).any (entityMergeMatch e) = true := by
      simp [List.any_append, newEntityNode_match]
    rw [mergeEntityNodes_pos _ e hAny2, List.map_append, map_mergeSet_unmatched e ns hall]
    simp [mergeSet_newEntityNode]

theorem mergeEntity_idem (g : Graph) (e : Entity) :
    mergeEntity (mergeEntity g e) e = mergeEntity g e := by
  unfold mergeEntity
  simp [mergeEntityNodes_idem]

/- Lemmas about existence and frame conditions. -/

theorem existEntity_iff (g : Graph) (i : Ident) :
    existEntity g i = true ↔
      ∃ n, n ∈ g.nodes ∧ "Entity" ∈ n.labels ∧
        lookupProp n.props "id" = some (.pstr i.toString) := by
  simp [existEntity, List.any_eq_true, Bool.and_eq_true, decide_eq_true_eq]

theorem factEdgeMerge_nodes (g : Graph) (f : Fact) : (factEdgeMerge g f).nodes = g.nodes := by
  unfold factEdgeMerge
  split
  · split
    · split <;> rfl
    · rfl
  · rfl

theorem existEntity_factEdgeMerge (g : Graph) (f : Fact) (i : Ident) :
    existEntity (factEdgeMerge g f) i = existEntity g i := by
  unfold existEntity
  rw [factEdgeMerge_nodes]

theorem existFactEdge_mergeEntity (g : Graph) (e : Entity) (i : Ident) :
    existFactEdge (mergeEntity g e) i = existFactEdge g i := rfl

theorem existEntity_mergeEntity_self (g : Graph) (e : Entity) :
    existEntity (mergeEntity g e) e.id = true := by
  apply (existEntity_iff _ _).mpr
  cases hAny : g.nodes.any (entityMergeMatch e) with
  | true =>
    obtain ⟨n, hn, hm⟩ := List.any_eq_true.mp hAny
    obtain ⟨h1, _, h3⟩ := (entityMergeMatch_iff e n).mp hm
    refine ⟨mergeSet e n, ?_, ?_, ?_⟩
    · show mergeSet e n ∈ (mergeEntity g e).nodes
      unfold mergeEntity
      rw [mergeEntityNodes_pos _ _ hAny]
      exact List.mem_map_of_mem _ hn
    · rw [mergeSet_labels]
      exact h1
    · rw [mergeSet_lookup_id]
      exact h3
  | false =>
    refine ⟨newEntityNode e, ?_, ?_, ?_⟩
    · show newEntityNode e ∈ (mergeEntity g e).nodes
      unfold mergeEntity
      rw [mergeEntityNodes_neg _ _ hAny]
      exact List.mem_append_right _ (by simp)
    · simp [newEntityNode]
    · show lookupProp (applyEntitySet [("id", .pstr e.id.toString)] e) "id" = _
      rw [lookupProp_applyEntitySet_id]
      simp [lookupProp]

theorem exist_eq_false_fact_part (g : Graph) (i : Ident) (h : exist g i = false) :
    existFactEdge g i = false := by
  unfold exist at h
  cases hx : existFactEdge g i
  · rfl
  · rw [hx] at h
    simp at h

theorem existEntity_mergeEntity_mono (g : Graph) (e : Entity) (i : Ident)
    (h : existEntity g i = true) : existEntity (mergeEntity g e) i = true := by
  obtain ⟨n, hn, hlab, hid⟩ := (existEntity_iff g i).mp h
  apply (existEntity_iff _ _).mpr
  cases hAny : g.nodes.any (entityMergeMatch e) with
  | true =>
    refine ⟨mergeSet e n, ?_, ?_, ?_⟩
    · show mergeSet e n ∈ (mergeEntity g e).nodes
      unfold mergeEntity
      rw [mergeEntityNodes_pos _ _ hAny]
      exact List.mem_map_of_mem _ hn
    · rw [mergeSet_labels]
      exact hlab
    · rw [mergeSet_lookup_id]
      exact hid
  | false =>
    refine ⟨n, ?_, hlab, hid⟩
    show n ∈ (mergeEntity g e).nodes
    unfold mergeEntity
    rw [mergeEntityNodes_neg _ _ hAny]
    exact List.mem_append_left _ hn

/- Claim theorems. -/

/-- C1: the spec claims get_entities([e.id]) after update(e) returns an entity
equal to e in every field. In the code this round trip cannot succeed: update
stores the label only as a node tag, never as a property, while get_entities
decodes the label from the property map, so decoding fails with KeyError on
label (and metadata is never decoded at all). Evaluated at a concrete entity
with every field populated. -/
theorem c1_roundtrip_label_keyerror :
    getEntities gRich (.list [eRich.id]) = .error (.keyError "label") := by decide

/-- C2: after storing Paris, France and the located_in fact between them, the
spec claims get_facts([F1]) returns that one fact. The code cannot return it:
the get_facts query filters on an identifier e that the query never defines and
on a parameter id that is never bound, so the backend rejects the query and
get_facts raises instead of returning a one-element FactList. -/
theorem c2_scenario_get_facts_fails :
    getFacts gScenario (.list [fLocated.id]) =
      .error
        (.queryError "get_facts filters on undefined identifier e and unbound parameter id") :=
  rfl

/-- C3: the claim says a fact edge whose id is in the remove list is deleted
even when its endpoints are not. In the code the fact-edge deletion query
references a parameter id that is never bound, so that query errors and the
edge survives: with fact-1 stored between ent-a and ent-b, remove([fact-1])
returns the graph unchanged, the FACT edge still present, and surfaces the
backend error. -/
theorem c3_fact_edge_not_deleted :
    existFactEdge gAB (.str "fact-1") = true ∧
    remove gAB (.list [Ident.str "fact-1"]) =
      (gAB, some (.queryError "fact deletion query references unbound parameter id")) :=
  ⟨by decide, by decide⟩

/-- C4 counterexample: the claim says both endpoint entities are retrievable
via get_entities after update(fact). They are not: the entity nodes are
created, but get_entities fails with KeyError on label while decoding any
stored entity, so the retrieval raises instead of returning the endpoints. -/
theorem c4_endpoints_not_retrievable :
    getEntities (update emptyGraph (.fact fLocated)).1
      (.list [fLocated.subj.id, fLocated.obj.id]) = .error (.keyError "label") := by decide

/-- C4 amended: for every fact f whose subject and object do not yet exist
(exist returns false for both ids), update(f) creates both endpoint entities by
recursively invoking entity update, so that afterwards an Entity-tagged node
with the subject id and one with the object id are stored. -/
theorem c4_cascading_create (g : Graph) (f : Fact)
    (hs : exist g f.subj.id = false) (ho : exist g f.obj.id = false) :
    existEntity (update g (.fact f)).1 f.subj.id = true ∧
    existEntity (update g (.fact f)).1 f.obj.id = true := by
  have hofe : existFactEdge (mergeEntity g f.subj) f.obj.id = false := by
    rw [existFactEdge_mergeEntity]
    exact exist_eq_false_fact_part g f.obj.id ho
  have key : ∀ i : Ident, existEntity (updateFactOne g f) i =
      existEntity (if exist (mergeEntity g f.subj) f.obj.id then mergeEntity g f.subj
        else mergeEntity (mergeEntity g f.subj) f.obj) i := by
    intro i
    simp only [updateFactOne, hs, Bool.false_eq_true, if_false]
    exact existEntity_factEdgeMerge _ f i
  constructor
  · show existEntity (updateFactOne g f) f.subj.id = true
    rw [key f.subj.id]
    by_cases h2 : exist (mergeEntity g f.subj) f.obj.id = true
    · rw [if_pos h2]
      exact existEntity_mergeEntity_self g f.subj
    · rw [if_neg h2]
      exact existEntity_mergeEntity_mono _ f.obj _ (existEntity_mergeEntity_self g f.subj)
  · show existEntity (updateFactOne g f) f.obj.id = true
    rw [key f.obj.id]
    by_cases h2 : exist (mergeEntity g f.subj) f.obj.id = true
    · rw [if_pos h2]
      have h3 := h2
      unfold exist at h3
      rw [hofe] at h3
      simpa using h3
    · rw [if_neg h2]
      exact existEntity_mergeEntity_self _ f.obj

/-- C4 witness: on the empty graph with the concrete fact fAB, both hypotheses
hold and both endpoint entities are stored after the update. -/
theorem c4_witness :
    exist emptyGraph fAB.subj.id = false ∧ exist emptyGraph fAB.obj.id = false ∧
    (existEntity (update emptyGraph (.fact fAB)).1 fAB.subj.id = true ∧
     existEntity (update emptyGraph (.fact fAB)).1 fAB.obj.id = true) :=
  ⟨by decide, by decide, c4_cascading_create emptyGraph fAB (by decide) (by decide)⟩

/-- C5: remove with a single id does not behave like remove([x]): the deletion
id list is built by iterating the raw argument, so a single UUID raises
TypeError before any query and the stored node survives, while remove([x])
deletes the node; the two resulting graphs differ. -/
theorem c5_single_remove_diverges :
    remove gRich (.single (.uuid uuidA)) =
      (gRich, some (.typeError "UUID object is not iterable")) ∧
    (remove gRich (.list [Ident.uuid uuidA])).1.nodes = [] ∧
    (remove gRich (.single (.uuid uuidA))).1 ≠ (remove gRich (.list [Ident.uuid uuidA])).1 :=
  ⟨by decide, by decide, by decide⟩

/-- C6: update with any value that is not an Entity, EntityList, Fact or
FactList raises ValueError immediately: no query is issued and the graph state
is returned unchanged. -/
theorem c6_invalid_update_rejected (g : Graph) (s : String) :
    update g (.other s) =
      (g, some
        (.valueError "Invalid datatype provided must be Entity, EntityList, Fact or FactList")) :=
  rfl

/-- C7 counterexample: the claim also says every unmatched id in the list is
silently omitted with no error; but when the list additionally contains an id
that does match a stored entity, the call raises KeyError on label while
decoding the matched node, so the no-error guarantee fails for mixed lists. -/
theorem c7_mixed_list_errors :
    getEntities gRich (.list [Ident.uuid uuidA, Ident.str "nonexistent-id"]) =
      .error (.keyError "label") := by decide

/-- C7 amended: for every list of ids none of which matches a stored entity,
get_entities returns an empty list rather than raising an error. -/
theorem c7_unmatched_ids_empty (g : Graph) (l : List Ident)
    (h : ∀ n ∈ g.nodes, entityFetchMatch (l.map Ident.toString) n = false) :
    getEntities g (.list l) = .ok [] := by
  show (g.nodes.filter (entityFetchMatch (l.map Ident.toString))).mapM decodeEntityNode = .ok []
  have hfil : g.nodes.filter (entityFetchMatch (l.map Ident.toString)) = [] := by
    apply List.filter_eq_nil_iff.mpr
    intro n hn
    simp [h n hn]
  rw [hfil]
  rfl

/-- C7 witness: a stored graph and an id list with no match, evaluated
concretely. -/
theorem c7_witness :
    (∀ n ∈ gRich.nodes,
      entityFetchMatch ([Ident.str "nonexistent-id"].map Ident.toString) n = false) ∧
    getEntities gRich (.list [Ident.str "nonexistent-id"]) = .ok [] :=
  ⟨by decide, c7_unmatched_ids_empty gRich [Ident.str "nonexistent-id"] (by decide)⟩

/-- C8: entity update is idempotent: a second update with the same entity
leaves the graph exactly as after the first, and starting from a state with no
node carrying the id, the update leaves exactly one node with that id. -/
theorem c8_update_idempotent (g : Graph) (e : Entity)
    (h : countIdNodes g e.id.toString = 0) :
    update (update g (.ent e)).1 (.ent e) = update g (.ent e) ∧
    countIdNodes (update g (.ent e)).1 e.id.toString = 1 := by
  constructor
  · show (mergeEntity (mergeEntity g e) e, (none : Option Err)) = (mergeEntity g e, none)
    rw [mergeEntity_idem]
  · have hfil : g.nodes.filter
        (fun n => decide (lookupProp n.props "id" = some (.pstr e.id.toString))) = [] := by
      have h2 := h
      unfold countIdNodes at h2
      exact List.length_eq_zero.mp h2
    have hall : ∀ n ∈ g.nodes,
        ¬(lookupProp n.props "id" = some (.pstr e.id.toString)) := by
      intro n hn
      have h3 := List.filter_eq_nil_iff.mp hfil n hn
      simpa using h3
    have hAny : g.nodes.any (entityMergeMatch e) = false := by
      apply List.any_eq_false.mpr
      intro n hn
      rw [entityMergeMatch_iff]
      simp [hall n hn]
    show countIdNodes (mergeEntity g e) e.id.toString = 1
    have hnodes : (mergeEntity g e).nodes = g.nodes ++ [newEntityNode e] := by
      unfold mergeEntity
      rw [mergeEntityNodes_neg _ _ hAny]
    unfold countIdNodes
    rw [hnodes, List.filter_append, hfil]
    simp [List.filter, newEntityNode, lookupProp_applyEntitySet_id, lookupProp]

/-- C8 witness: the empty graph and the concrete entity eA, evaluated with the
hypothesis discharged. -/
theorem c8_witness :
    update (update emptyGraph (.ent eA)).1 (.ent eA) = update emptyGraph (.ent eA) ∧
    countIdNodes (update emptyGraph (.ent eA)).1 eA.id.toString = 1 :=
  c8_update_idempotent emptyGraph eA (by decide)

/-- C9: when both endpoint entities already exist as stored Entity nodes,
update(fact) leaves the stored nodes, hence all their field values,
unchanged: no entity update runs and the edge merge touches only edges. -/
theorem c9_existing_endpoints_unchanged (g : Graph) (f : Fact)
    (hs : existEntity g f.subj.id = true) (ho : existEntity g f.obj.id = true) :
    (update g (.fact f)).1.nodes = g.nodes := by
  show (updateFactOne g f).nodes = g.nodes
  have h1 : exist g f.subj.id = true := by
    unfold exist
    rw [hs]
    rfl
  have h2 : exist g f.obj.id = true := by
    unfold exist
    rw [ho]
    rfl
  simp only [updateFactOne, h1, if_true]
  rw [if_pos h2]
  exact factEdgeMerge_nodes g f

/-- C9 witness: the graph holding the two stored entities and the concrete
fact between them, evaluated with the hypotheses discharged. -/
theorem c9_witness :
    existEntity gTwo fAB.subj.id = true ∧ existEntity gTwo fAB.obj.id = true ∧
    (update gTwo (.fact fAB)).1.nodes = gTwo.nodes :=
  ⟨by decide, by decide, c9_existing_endpoints_unchanged gTwo fAB (by decide) (by decide)⟩

/-- C10: a single non-list UUID argument makes get_entities and get_facts
raise TypeError before any query is issued (the id list comprehension iterates
the raw argument, and a UUID is not iterable), and a single string argument
yields the list of the individual characters of the string instead of the
whole id. -/
theorem c10_single_id_iteration (g : Graph) (u : String) :
    getEntities g (.single (.uuid u)) = .error (.typeError "UUID object is not iterable") ∧
    getFacts g (.single (.uuid u)) = .error (.typeError "UUID object is not iterable") ∧
    buildIds (.single (.str "abc")) = .ok ["a", "b", "c"] :=
  ⟨rfl, rfl, by decide⟩

end HybridAGI
